import Mathlib

/-!
Shallow embedding of the kiera.js entity cache and permission-resolution
engine (src/src/structures/ClubChannel.js: classes ClubChannel, Club, Member).

Modelling conventions:
* JavaScript field values that the code merely copies are modelled by the
  inductive `JSVal` (`undef` plays JavaScript's `undefined`, so a payload
  field equal to `undef` is an absent field, exactly as the source's
  `data.x !== undefined` guards treat it).
* Channel names are modelled as `List Char` (JavaScript strings), ids as
  `String`; capability masks are `Nat` bit masks.  All masks are below
  2^31, where JavaScript's 32-bit `&`, `|`, `~` agree with the `Nat`
  bitwise operations used here (`p & ~d` becomes `andNot`).
* The keyed registries (`Collection`, not under src/) are modelled from the
  spec (§4.1) as insertion-ordered association lists with `rGet`, `rSet`,
  `rDel`; `update` on a registry is merge-only and leaves the registry
  unchanged when no entity with the id exists.
-/

inductive JSVal where
  | undef
  | null
  | bool (b : Bool)
  | num (n : Int)
  | str (s : String)
deriving DecidableEq

/-- JavaScript `x !== undefined`. -/
def JSVal.isDef : JSVal → Bool
  | .undef => false
  | _ => true

/-- JavaScript truthiness of a value. -/
def JSVal.truthy : JSVal → Bool
  | .undef => false
  | .null => false
  | .bool b => b
  | .num n => decide (n ≠ 0)
  | .str s => decide (s ≠ "")

/-- Reading a possibly-absent object property: an absent key yields `undefined`. -/
def getJS (o : Option JSVal) : JSVal :=
  o.getD JSVal.undef

/-- Registry lookup (`Collection.get` / `Map.get`), modelled from the spec §4.1. -/
def rGet {α : Type} : List (String × α) → String → Option α
  | [], _ => none
  | (k, v) :: rest, key => if k = key then some v else rGet rest key

/-- Registry insertion/replacement (`Map.set`), modelled from the spec §4.1. -/
def rSet {α : Type} : List (String × α) → String → α → List (String × α)
  | [], key, v => [(key, v)]
  | (k, w) :: rest, key, v =>
    if k = key then (key, v) :: rest else (k, w) :: rSet rest key v

/-- Registry deletion (`Map.delete`), modelled from the spec §4.1. -/
def rDel {α : Type} : List (String × α) → String → List (String × α)
  | [], _ => []
  | (k, v) :: rest, key =>
    if k = key then rDel rest key else (k, v) :: rDel rest key

namespace Permissions

/-- Modelled from the spec: `Constants.js` is not under src/; the spec names a
single administrator capability bit. -/
def administrator : Nat := 8

/-- Modelled from the spec: the full "all capabilities" mask (every capability
bit set, administrator included). -/
def all : Nat := 2147483647

end Permissions

/-- Modelled from the spec: the Permission value class (not under src/) is an
immutable wrapper around a capability bitmask; `allow` is the wrapped mask. -/
structure Permission where
  allow : Nat
deriving DecidableEq

/-- A club role as used by `Club.permissionsOf`: its registry id and its
permission bundle (`role.permissions.allow`). -/
structure Role where
  id : String
  permissions : Permission
deriving DecidableEq

/-- A channel permission overwrite: subject id plus allow/deny masks
(`PermissionOverwrite` is not under src/; fields are the ones the source
reads: `overwrite.allow`, `overwrite.deny`, keyed by subject id). -/
structure Overwrite where
  id : String
  allow : Nat
  deny : Nat
deriving DecidableEq

/-- Modelled from the spec §3: a Voice State carries the member id, a nullable
channel id and the mute/deaf/suppress flags. -/
structure VoiceState where
  id : String
  channelID : JSVal := JSVal.null
  mute : Bool := false
  deaf : Bool := false
  suppress : Bool := false
deriving DecidableEq

/-- Modelled from the spec: the detached all-default Voice State produced by
`new VoiceState({id: this.id})`. -/
def VoiceState.detached (id : String) : VoiceState :=
  { id := id }

/-- The embedded user object of a member payload (`data.user`); only its id is
read by the constructor logic. -/
structure UserObj where
  id : String
deriving DecidableEq

/-- A club member: id, held role ids, and the merged attributes of
`Member.update`.  Defaults mirror the constructor (`game = null`,
`nick = null`, `roles = []`, other attributes start undefined). -/
structure Member where
  id : String
  roles : List String := []
  status : JSVal := JSVal.undef
  game : JSVal := JSVal.null
  joinedAt : JSVal := JSVal.undef
  clientStatus : JSVal := JSVal.undef
  activities : JSVal := JSVal.undef
  premiumSince : JSVal := JSVal.undef
  nick : JSVal := JSVal.null
deriving DecidableEq

/-- The identity-and-user part of a freshly constructed Member (the remaining
attributes are initialised through `Member.update`).  `user = none` models the
JavaScript `this.user = null`. -/
structure MemberInit where
  id : String
  user : Option UserObj
deriving DecidableEq

/-- The payload fields read by the Member constructor. -/
structure MemberCtorPayload where
  id : Option String := none
  user : Option UserObj := none
deriving DecidableEq

/-- The payload fields read by `Member.update`.  `mute` is an `Option` because
the source tests `data.hasOwnProperty("mute")` (key presence, not
definedness); the other fields follow the `undef` = absent convention. -/
structure MemberPayload where
  status : JSVal := JSVal.undef
  game : JSVal := JSVal.undef
  joined_at : JSVal := JSVal.undef
  client_status : JSVal := JSVal.undef
  activities : JSVal := JSVal.undef
  premium_since : JSVal := JSVal.undef
  nick : JSVal := JSVal.undef
  roles : Option (List String) := none
  mute : Option JSVal := none
  deaf : JSVal := JSVal.undef
  suppress : JSVal := JSVal.undef
  channel_id : JSVal := JSVal.undef
deriving DecidableEq

/-- A club: id, owner id, role registry, and the attributes merged by
`Club.update`. -/
structure Club where
  id : String
  ownerID : JSVal := JSVal.undef
  roles : List (String × Role) := []
  name : JSVal := JSVal.undef
  verificationLevel : JSVal := JSVal.undef
  splash : JSVal := JSVal.undef
  banner : JSVal := JSVal.undef
  region : JSVal := JSVal.undef
  icon : JSVal := JSVal.undef
  features : JSVal := JSVal.undef
  emojis : JSVal := JSVal.undef
  afkChannelID : JSVal := JSVal.undef
  afkTimeout : JSVal := JSVal.undef
  defaultNotifications : JSVal := JSVal.undef
  mfaLevel : JSVal := JSVal.undef
  large : JSVal := JSVal.undef
  maxPresences : JSVal := JSVal.undef
  explicitContentFilter : JSVal := JSVal.undef
  systemChannelID : JSVal := JSVal.undef
  premiumTier : JSVal := JSVal.undef
  premiumSubscriptionCount : JSVal := JSVal.undef
  vanityURL : JSVal := JSVal.undef
  preferredLocale : JSVal := JSVal.undef
  description : JSVal := JSVal.undef
  maxMembers : JSVal := JSVal.undef
  publicUpdatesChannelID : JSVal := JSVal.undef
  rulesChannelID : JSVal := JSVal.undef
  maxVideoChannelUsers : JSVal := JSVal.undef
deriving DecidableEq

/-- The payload fields read by `Club.update` (remote snake-case names). -/
structure ClubPayload where
  name : JSVal := JSVal.undef
  verification_level : JSVal := JSVal.undef
  splash : JSVal := JSVal.undef
  banner : JSVal := JSVal.undef
  region : JSVal := JSVal.undef
  owner_id : JSVal := JSVal.undef
  icon : JSVal := JSVal.undef
  features : JSVal := JSVal.undef
  emojis : JSVal := JSVal.undef
  afk_channel_id : JSVal := JSVal.undef
  afk_timeout : JSVal := JSVal.undef
  default_message_notifications : JSVal := JSVal.undef
  mfa_level : JSVal := JSVal.undef
  large : JSVal := JSVal.undef
  max_presences : JSVal := JSVal.undef
  explicit_content_filter : JSVal := JSVal.undef
  system_channel_id : JSVal := JSVal.undef
  premium_tier : JSVal := JSVal.undef
  premium_subscription_count : JSVal := JSVal.undef
  vanity_url_code : JSVal := JSVal.undef
  preferred_locale : JSVal := JSVal.undef
  description : JSVal := JSVal.undef
  max_members : JSVal := JSVal.undef
  public_updates_channel_id : JSVal := JSVal.undef
  rules_channel_id : JSVal := JSVal.undef
  max_video_channel_users : JSVal := JSVal.undef
deriving DecidableEq

/-- A club channel: the attributes merged by `ClubChannel.update` plus its
permission-overwrite registry.  The name is a JavaScript string, modelled as a
character list. -/
structure ClubChannel where
  id : String := ""
  type : JSVal := JSVal.undef
  name : List Char := []
  position : JSVal := JSVal.undef
  parentID : JSVal := JSVal.undef
  nsfw : Option Bool := none
  permissionOverwrites : List (String × Overwrite) := []
deriving DecidableEq

/-- The payload fields read by `ClubChannel.update`.  `nsfw` is the explicit
boolean flag (`none` = absent), `permission_overwrites` is `none` when absent
or null (the source guards it by truthiness). -/
structure ChannelPayload where
  type : JSVal := JSVal.undef
  name : Option (List Char) := none
  position : JSVal := JSVal.undef
  parent_id : JSVal := JSVal.undef
  nsfw : Option Bool := none
  permission_overwrites : Option (List Overwrite) := none
deriving DecidableEq

/-- `p & ~d` on non-negative 32-bit masks: clear in `p` every bit set in `d`. -/
def andNot (p d : Nat) : Nat :=
  p ^^^ (p &&& d)

/-- The role loop of `Club.permissionsOf`: accumulate `permissions |= allow`
over the member's role ids (missing registry entries are skipped by the
`if(!role) continue` guard), breaking to the full mask as soon as a role
carries the administrator bit. -/
def roleLoop (roles : List (String × Role)) : List String → Nat → Nat
  | [], permissions => permissions
  | rid :: rest, permissions =>
    match rGet roles rid with
    | none => roleLoop roles rest permissions
    | some role =>
      if role.permissions.allow &&& Permissions.administrator ≠ 0 then
        Permissions.all
      else
        roleLoop roles rest (permissions ||| role.permissions.allow)

/-- `Club.permissionsOf` (source lines 832-854).  `none` models the TypeError
raised when the everyone role (id = club id) is missing from the registry. -/
def Club.permissionsOf (c : Club) (m : Member) : Option Permission :=
  if c.ownerID = JSVal.str m.id then
    some ⟨Permissions.all⟩
  else
    match rGet c.roles c.id with
    | none => none
    | some everyone =>
      some ⟨roleLoop c.roles m.roles everyone.permissions.allow⟩

/-- The role-overwrite pooling loop of `ClubChannel.permissionsOf` (source
lines 126-133): OR together the deny masks and the allow masks of every held
role that has an overwrite on the channel. -/
def poolRoles (ows : List (String × Overwrite)) :
    List String → Nat → Nat → Nat × Nat
  | [], deny, allow => (deny, allow)
  | rid :: rest, deny, allow =>
    match rGet ows rid with
    | some ow => poolRoles ows rest (deny ||| ow.deny) (allow ||| ow.allow)
    | none => poolRoles ows rest deny allow

/-- `ClubChannel.permissionsOf` (source lines 116-140): club-wide base mask,
administrator early return, everyone overwrite, pooled role overwrites,
member overwrite. -/
def ClubChannel.permissionsOf (ch : ClubChannel) (c : Club) (m : Member) :
    Option Permission :=
  match Club.permissionsOf c m with
  | none => none
  | some perm =>
    if perm.allow &&& Permissions.administrator ≠ 0 then
      some ⟨Permissions.all⟩
    else
      let p1 :=
        match rGet ch.permissionOverwrites c.id with
        | some ow => andNot perm.allow ow.deny ||| ow.allow
        | none => perm.allow
      let pooled := poolRoles ch.permissionOverwrites m.roles 0 0
      let p2 := andNot p1 pooled.1 ||| pooled.2
      let p3 :=
        match rGet ch.permissionOverwrites m.id with
        | some ow => andNot p2 ow.deny ||| ow.allow
        | none => p2
      some ⟨p3⟩

/-- `Club.update` (source lines 302-381): twenty-six independent
presence-guarded assignments, modelled as one simultaneous record update. -/
def Club.update (data : ClubPayload) (c : Club) : Club :=
  { c with
    name := if data.name.isDef then data.name else c.name,
    verificationLevel :=
      if data.verification_level.isDef then data.verification_level
      else c.verificationLevel,
    splash := if data.splash.isDef then data.splash else c.splash,
    banner := if data.banner.isDef then data.banner else c.banner,
    region := if data.region.isDef then data.region else c.region,
    ownerID := if data.owner_id.isDef then data.owner_id else c.ownerID,
    icon := if data.icon.isDef then data.icon else c.icon,
    features := if data.features.isDef then data.features else c.features,
    emojis := if data.emojis.isDef then data.emojis else c.emojis,
    afkChannelID :=
      if data.afk_channel_id.isDef then data.afk_channel_id
      else c.afkChannelID,
    afkTimeout :=
      if data.afk_timeout.isDef then data.afk_timeout else c.afkTimeout,
    defaultNotifications :=
      if data.default_message_notifications.isDef then
        data.default_message_notifications
      else c.defaultNotifications,
    mfaLevel := if data.mfa_level.isDef then data.mfa_level else c.mfaLevel,
    large := if data.large.isDef then data.large else c.large,
    maxPresences :=
      if data.max_presences.isDef then data.max_presences else c.maxPresences,
    explicitContentFilter :=
      if data.explicit_content_filter.isDef then data.explicit_content_filter
      else c.explicitContentFilter,
    systemChannelID :=
      if data.system_channel_id.isDef then data.system_channel_id
      else c.systemChannelID,
    premiumTier :=
      if data.premium_tier.isDef then data.premium_tier else c.premiumTier,
    premiumSubscriptionCount :=
      if data.premium_subscription_count.isDef then
        data.premium_subscription_count
      else c.premiumSubscriptionCount,
    vanityURL :=
      if data.vanity_url_code.isDef then data.vanity_url_code
      else c.vanityURL,
    preferredLocale :=
      if data.preferred_locale.isDef then data.preferred_locale
      else c.preferredLocale,
    description :=
      if data.description.isDef then data.description else c.description,
    maxMembers :=
      if data.max_members.isDef then data.max_members else c.maxMembers,
    publicUpdatesChannelID :=
      if data.public_updates_channel_id.isDef then
        data.public_updates_channel_id
      else c.publicUpdatesChannelID,
    rulesChannelID :=
      if data.rules_channel_id.isDef then data.rules_channel_id
      else c.rulesChannelID,
    maxVideoChannelUsers :=
      if data.max_video_channel_users.isDef then data.max_video_channel_users
      else c.maxVideoChannelUsers }

/-- Modelled from the spec §4.2: the Voice State merge (the `VoiceState`
class is not under src/): presence-aware update of channel id and flags. -/
def VoiceState.updateVS (data : MemberPayload) (v : VoiceState) : VoiceState :=
  { v with
    channelID := if data.channel_id.isDef then data.channel_id else v.channelID,
    mute :=
      match data.mute with
      | some x => if x.isDef then x.truthy else v.mute
      | none => v.mute,
    deaf := if data.deaf.isDef then data.deaf.truthy else v.deaf,
    suppress :=
      if data.suppress.isDef then data.suppress.truthy else v.suppress }

/-- `Member.update` (source lines 1010-1045).  `dp` stands for the external
`Date.parse` and `csA` for the `Object.assign` default-filling applied to
`client_status`; `hasClub` is the truthiness of `this.club`; `vs` is the
owning club's voice-state registry, returned alongside the member because the
voice block mutates it.  When the registry holds no state for the member and
the payload carries voice data, `voiceStates.update` is merge-only per the
spec's registry contract (§4.1) and leaves the registry unchanged. -/
def Member.update (dp csA : JSVal → JSVal) (hasClub : Bool)
    (data : MemberPayload) (m : Member) (vs : List (String × VoiceState)) :
    Member × List (String × VoiceState) :=
  let vs' :=
    if data.mute.isSome ∧ hasClub = true then
      if data.channel_id = JSVal.null ∧ (getJS data.mute).truthy = false ∧
          data.deaf.truthy = false ∧ data.suppress.truthy = false then
        rDel vs m.id
      else
        match rGet vs m.id with
        | some st => rSet vs m.id (VoiceState.updateVS data st)
        | none => vs
    else vs
  ({ m with
      status := if data.status.isDef then data.status else m.status,
      game := if data.game.isDef then data.game else m.game,
      joinedAt := if data.joined_at.isDef then dp data.joined_at else m.joinedAt,
      clientStatus :=
        if data.client_status.isDef then csA data.client_status
        else m.clientStatus,
      activities :=
        if data.activities.isDef then data.activities else m.activities,
      premiumSince :=
        if data.premium_since.isDef then data.premium_since
        else m.premiumSince,
      nick := if data.nick.isDef then data.nick else m.nick,
      roles := data.roles.getD m.roles },
    vs')

/-- `Member.voiceState` getter (source lines 1096-1104): the registered state
when the member has a club and one exists, otherwise a detached default state
keyed by the member's id. -/
def Member.voiceState (hasClub : Bool) (vs : List (String × VoiceState))
    (m : Member) : VoiceState :=
  if hasClub = true then
    match rGet vs m.id with
    | some st => st
    | none => VoiceState.detached m.id
  else
    VoiceState.detached m.id

/-- The member id computed by `super(data.id || data.user.id)`: the payload id
when truthy, otherwise the embedded user's id; `none` marks the TypeError
raised when both `data.id` and `data.user` are missing. -/
def resolveId (data : MemberCtorPayload) : Option String :=
  match data.id with
  | some s => if s = "" then data.user.map UserObj.id else some s
  | none => data.user.map UserObj.id

/-- The identity-and-user resolution of the Member constructor (source lines
985-1008).  `users` is the process-wide user registry; `hasClub` is the
truthiness of the `club` argument.  An `Except.error` models a thrown
exception; registering an embedded user in the process-wide cache returns
that user. -/
def Member.construct (users : List (String × UserObj)) (hasClub : Bool)
    (data : MemberCtorPayload) : Except String MemberInit :=
  match resolveId data with
  | none => Except.error "TypeError: cannot read id of undefined user"
  | some i =>
    if hasClub = true then
      match rGet users i with
      | some u => Except.ok ⟨i, some u⟩
      | none =>
        match data.user with
        | some u => Except.ok ⟨i, some u⟩
        | none =>
          Except.error ("User associated with Member not found: " ++ i)
    else
      match data.user with
      | some u => Except.ok ⟨i, some u⟩
      | none => Except.ok ⟨i, none⟩

/-- The nsfw naming heuristic of `ClubChannel.update` (source line 44):
`name.length === 4 ? name === "nsfw" : name.startsWith("nsfw-")`. -/
def nsfwName (name : List Char) : Bool :=
  if name.length = 4 then decide (name = "nsfw".toList)
  else "nsfw-".toList.isPrefixOf name

/-- Rebuild the permission-overwrite registry from a complete payload set
(`new Collection` plus `forEach add`). -/
def buildOverwrites (l : List Overwrite) : List (String × Overwrite) :=
  l.foldl (fun r ow => rSet r ow.id ow) []

/-- `ClubChannel.update` (source lines 31-51).  The nsfw attribute is
recomputed on every merge from the post-merge name and the payload flag
(`heuristic || data.nsfw`, so an absent flag with a non-matching name leaves
it undefined); the overwrite registry is rebuilt only when the payload field
is present and non-null. -/
def ClubChannel.update (data : ChannelPayload) (ch : ClubChannel) :
    ClubChannel :=
  { ch with
    type := if data.type.isDef then data.type else ch.type,
    name := data.name.getD ch.name,
    position := if data.position.isDef then data.position else ch.position,
    parentID := if data.parent_id.isDef then data.parent_id else ch.parentID,
    nsfw :=
      if nsfwName (data.name.getD ch.name) then some true else data.nsfw,
    permissionOverwrites :=
      match data.permission_overwrites with
      | some l => buildOverwrites l
      | none => ch.permissionOverwrites }

/-- Spec-side definition, following the words of the claims about club-scope
resolution: the everyone role's allow mask OR-ed with the allow mask of every
role the member holds (held role ids without a registry entry contribute
nothing). -/
def clubSpecMask (c : Club) (m : Member) (base : Nat) : Nat :=
  m.roles.foldl
    (fun acc rid =>
      match rGet c.roles rid with
      | some r => acc ||| r.permissions.allow
      | none => acc)
    base

/-- Spec-side definition of the whole club-scope claim: full mask for the
owner, otherwise the everyone-based allow accumulation. -/
def clubSpecResult (c : Club) (m : Member) : Option Permission :=
  if c.ownerID = JSVal.str m.id then some ⟨Permissions.all⟩
  else (rGet c.roles c.id).map fun e => ⟨clubSpecMask c m e.permissions.allow⟩

/-- Spec-side definition, following the words of the channel-scope ordering
claim: start from the club-wide allow mask, apply the everyone overwrite,
apply the pooled role overwrites (all deny masks OR-ed together, all allow
masks OR-ed together) once, apply the member overwrite last. -/
def channelSpecMask (ch : ClubChannel) (c : Club) (m : Member) (base : Nat) :
    Nat :=
  let p1 :=
    match rGet ch.permissionOverwrites c.id with
    | some ow => andNot base ow.deny ||| ow.allow
    | none => base
  let pooledDeny :=
    m.roles.foldl
      (fun d rid =>
        match rGet ch.permissionOverwrites rid with
        | some ow => d ||| ow.deny
        | none => d)
      0
  let pooledAllow :=
    m.roles.foldl
      (fun a rid =>
        match rGet ch.permissionOverwrites rid with
        | some ow => a ||| ow.allow
        | none => a)
      0
  let p2 := andNot p1 pooledDeny ||| pooledAllow
  match rGet ch.permissionOverwrites m.id with
  | some ow => andNot p2 ow.deny ||| ow.allow
  | none => p2

/-- Spec-side definition of the whole channel-scope ordering claim: the
returned Permission wraps the pipeline's final mask computed from the
member's club-wide allow mask. -/
def channelSpecResult (ch : ClubChannel) (c : Club) (m : Member) :
    Option Permission :=
  (Club.permissionsOf c m).map fun p => ⟨channelSpecMask ch c m p.allow⟩

/-- Spec-side definition for the stale-role claim: OR together the allow
masks of exactly those held roles that are present in the registry. -/
def presentRolesMask (c : Club) (m : Member) (base : Nat) : Nat :=
  (m.roles.filterMap (rGet c.roles)).foldl
    (fun acc r => acc ||| r.permissions.allow) base

/-! ### Helper lemmas -/

theorem testBit_andNot (p d i : Nat) :
    (andNot p d).testBit i = (p.testBit i && !(d.testBit i)) := by
  simp only [andNot, Nat.testBit_xor, Nat.testBit_land]
  cases p.testBit i <;> cases d.testBit i <;> rfl

theorem rGet_rDel {α : Type} (l : List (String × α)) (k : String) :
    rGet (rDel l k) k = none := by
  induction l with
  | nil => rfl
  | cons h t ih =>
    obtain ⟨k', v⟩ := h
    by_cases hk : k' = k
    · simpa [rDel, hk] using ih
    · simpa [rDel, rGet, hk] using ih

theorem roleLoop_admin (roles : List (String × Role)) (rid : String)
    (role : Role) (hget : rGet roles rid = some role)
    (hadm : role.permissions.allow &&& Permissions.administrator ≠ 0) :
    ∀ l : List String, rid ∈ l → ∀ acc,
      roleLoop roles l acc = Permissions.all := by
  intro l
  induction l with
  | nil => intro hmem; cases hmem
  | cons h t ih =>
    intro hmem acc
    rcases List.mem_cons.mp hmem with heq | hmem'
    · subst heq
      simp only [roleLoop, hget]
      rw [if_pos hadm]
    · cases hg : rGet roles h with
      | none =>
        simp only [roleLoop, hg]
        exact ih hmem' acc
      | some r' =>
        simp only [roleLoop, hg]
        by_cases hr : r'.permissions.allow &&& Permissions.administrator ≠ 0
        · rw [if_pos hr]
        · rw [if_neg hr]
          exact ih hmem' _

theorem roleLoop_noAdmin (roles : List (String × Role)) (l : List String) :
    ∀ acc,
      (∀ r ∈ l.filterMap (rGet roles),
        r.permissions.allow &&& Permissions.administrator = 0) →
      roleLoop roles l acc =
        l.foldl
          (fun acc rid =>
            match rGet roles rid with
            | some r => acc ||| r.permissions.allow
            | none => acc)
          acc := by
  induction l with
  | nil => intro acc _; rfl
  | cons h t ih =>
    intro acc hno
    have htail : ∀ r ∈ t.filterMap (rGet roles),
        r.permissions.allow &&& Permissions.administrator = 0 := by
      intro r hr
      obtain ⟨rid', h1, h2⟩ := List.mem_filterMap.mp hr
      exact hno r (List.mem_filterMap.mpr ⟨rid', List.mem_cons_of_mem _ h1, h2⟩)
    cases hg : rGet roles h with
    | none =>
      simp only [roleLoop, List.foldl_cons, hg]
      exact ih acc htail
    | some r =>
      have hz := hno r (List.mem_filterMap.mpr ⟨h, List.mem_cons_self h t, hg⟩)
      simp only [roleLoop, List.foldl_cons, hg]
      rw [if_neg (not_not_intro hz)]
      exact ih _ htail

theorem foldl_match_filterMap (roles : List (String × Role)) (l : List String) :
    ∀ acc,
      l.foldl
        (fun acc rid =>
          match rGet roles rid with
          | some r => acc ||| r.permissions.allow
          | none => acc)
        acc =
      (l.filterMap (rGet roles)).foldl
        (fun acc r => acc ||| r.permissions.allow) acc := by
  induction l with
  | nil => intro; rfl
  | cons h t ih =>
    intro acc
    cases hg : rGet roles h <;>
      simp [List.filterMap_cons, hg, List.foldl_cons, ih]

theorem poolRoles_eq (ows : List (String × Overwrite)) (l : List String) :
    ∀ d a,
      poolRoles ows l d a =
        (l.foldl
          (fun d rid =>
            match rGet ows rid with
            | some ow => d ||| ow.deny
            | none => d)
          d,
         l.foldl
          (fun a rid =>
            match rGet ows rid with
            | some ow => a ||| ow.allow
            | none => a)
          a) := by
  induction l with
  | nil => intros; rfl
  | cons h t ih =>
    intro d a
    cases hg : rGet ows h <;> simp [poolRoles, hg, List.foldl_cons, ih]

theorem poolRoles_allow_mono (ows : List (String × Overwrite)) (l : List String)
    (bit : Nat) :
    ∀ d a, a.testBit bit = true →
      ((poolRoles ows l d a).2).testBit bit = true := by
  induction l with
  | nil => intro d a h; exact h
  | cons hd t ih =>
    intro d a h
    cases hg : rGet ows hd with
    | none => simpa [poolRoles, hg] using ih d a h
    | some ow =>
      simp only [poolRoles, hg]
      exact ih _ _ (by simp [Nat.testBit_lor, h])

theorem poolRoles_allow_testBit (ows : List (String × Overwrite))
    (rid : String) (o : Overwrite) (bit : Nat)
    (hget : rGet ows rid = some o) (hb : o.allow.testBit bit = true) :
    ∀ l : List String, rid ∈ l → ∀ d a,
      ((poolRoles ows l d a).2).testBit bit = true := by
  intro l
  induction l with
  | nil => intro hmem; cases hmem
  | cons h t ih =>
    intro hmem d a
    rcases List.mem_cons.mp hmem with heq | hmem'
    · subst heq
      simp only [poolRoles, hget]
      exact poolRoles_allow_mono ows t bit _ _ (by simp [Nat.testBit_lor, hb])
    · cases hg : rGet ows h with
      | none =>
        simp only [poolRoles, hg]
        exact ih hmem' d a
      | some ow =>
        simp only [poolRoles, hg]
        exact ih hmem' _ _

/-! ### Claim theorems -/

/-- Claim C2 (confirmed): a member holding at least one role whose allow mask
has the administrator bit set gets the full capability mask from both
club-scope and channel-scope resolution, regardless of any overwrite on the
channel.  The everyone role is assumed present (spec §3 invariant). -/
theorem admin_short_circuit (c : Club) (m : Member) (ch : ClubChannel)
    (e adminRole : Role) (rid : String)
    (he : rGet c.roles c.id = some e)
    (hmem : rid ∈ m.roles)
    (hget : rGet c.roles rid = some adminRole)
    (hadm : adminRole.permissions.allow &&& Permissions.administrator ≠ 0) :
    Club.permissionsOf c m = some ⟨Permissions.all⟩ ∧
      ClubChannel.permissionsOf ch c m = some ⟨Permissions.all⟩ := by
  have hclub : Club.permissionsOf c m = some ⟨Permissions.all⟩ := by
    unfold Club.permissionsOf
    by_cases h : c.ownerID = JSVal.str m.id
    · rw [if_pos h]
    · rw [if_neg h]
      simp only [he]
      rw [roleLoop_admin c.roles rid adminRole hget hadm m.roles hmem]
  refine ⟨hclub, ?_⟩
  unfold ClubChannel.permissionsOf
  rw [hclub]
  simp only []
  rw [if_pos (by decide :
    (Permission.mk Permissions.all).allow &&& Permissions.administrator ≠ 0)]

/-- Witness for C2 at a concrete club, member and channel carrying a deny
overwrite for the member. -/
theorem admin_short_circuit_witness :
    Club.permissionsOf
      { id := ("c"), ownerID := JSVal.str ("z"),
        roles := [(("c"), { id := ("c"), permissions := ⟨1⟩ }),
                  (("r"), { id := ("r"), permissions := ⟨8⟩ })] }
      { id := ("m"), roles := [("r")] } = some ⟨Permissions.all⟩ ∧
    ClubChannel.permissionsOf
      { permissionOverwrites :=
          [(("m"), { id := ("m"), allow := 0, deny := Permissions.all })] }
      { id := ("c"), ownerID := JSVal.str ("z"),
        roles := [(("c"), { id := ("c"), permissions := ⟨1⟩ }),
                  (("r"), { id := ("r"), permissions := ⟨8⟩ })] }
      { id := ("m"), roles := [("r")] } = some ⟨Permissions.all⟩ :=
  admin_short_circuit _ _ _ ⟨("c"), ⟨1⟩⟩ ⟨("r"), ⟨8⟩⟩ ("r")
    (by decide) (by decide) (by decide) (by decide)

/-- Claim C1 (counterexample): the fixed-order overwrite pipeline does not
describe the result for a member whose club-wide allow mask carries the
administrator bit — the code returns the full mask immediately, while the
pipeline lets the member overwrite strip the bit. -/
theorem channel_pipeline_cex :
    ClubChannel.permissionsOf
      { permissionOverwrites := [(("m"), { id := ("m"), allow := 0, deny := 8 })] }
      { id := ("c"), ownerID := JSVal.str ("z"),
        roles := [(("c"), { id := ("c"), permissions := ⟨8⟩ })] }
      { id := ("m") } ≠
    channelSpecResult
      { permissionOverwrites := [(("m"), { id := ("m"), allow := 0, deny := 8 })] }
      { id := ("c"), ownerID := JSVal.str ("z"),
        roles := [(("c"), { id := ("c"), permissions := ⟨8⟩ })] }
      { id := ("m") } := by
  decide

/-- Claim C1 (amended, proved): whenever the member's club-wide allow mask
does not include the administrator bit, channel-scope `permissionsOf` wraps
exactly the mask produced by the fixed-order pipeline: everyone overwrite,
pooled role overwrites (denies OR-ed together, allows OR-ed together, applied
once), member overwrite last. -/
theorem channel_pipeline_amended (ch : ClubChannel) (c : Club) (m : Member)
    (p : Permission) (hp : Club.permissionsOf c m = some p)
    (hadm : p.allow &&& Permissions.administrator = 0) :
    ClubChannel.permissionsOf ch c m = channelSpecResult ch c m := by
  unfold ClubChannel.permissionsOf channelSpecResult
  rw [hp]
  simp only [Option.map_some']
  rw [if_neg (not_not_intro hadm)]
  unfold channelSpecMask
  rw [poolRoles_eq]

/-- Witness for the amended C1 at a concrete administrator-free member. -/
theorem channel_pipeline_amended_witness :
    ClubChannel.permissionsOf
      { permissionOverwrites := [(("m"), { id := ("m"), allow := 2, deny := 1 })] }
      { id := ("c"), ownerID := JSVal.str ("z"),
        roles := [(("c"), { id := ("c"), permissions := ⟨1⟩ })] }
      { id := ("m") } =
    channelSpecResult
      { permissionOverwrites := [(("m"), { id := ("m"), allow := 2, deny := 1 })] }
      { id := ("c"), ownerID := JSVal.str ("z"),
        roles := [(("c"), { id := ("c"), permissions := ⟨1⟩ })] }
      { id := ("m") } :=
  channel_pipeline_amended _ _ _ ⟨1⟩ (by decide) (by decide)

/-- Claim C3 (counterexample): for a non-owner member holding a role whose
allow mask has the administrator bit, club-scope resolution does not return
the everyone-allow OR-ed with the held roles' allows (it returns the full
mask instead). -/
theorem club_resolution_cex :
    Club.permissionsOf
      { id := ("c"), ownerID := JSVal.str ("z"),
        roles := [(("c"), { id := ("c"), permissions := ⟨1⟩ }),
                  (("r"), { id := ("r"), permissions := ⟨8⟩ })] }
      { id := ("m"), roles := [("r")] } ≠
    clubSpecResult
      { id := ("c"), ownerID := JSVal.str ("z"),
        roles := [(("c"), { id := ("c"), permissions := ⟨1⟩ }),
                  (("r"), { id := ("r"), permissions := ⟨8⟩ })] }
      { id := ("m"), roles := [("r")] } := by
  decide

/-- Claim C3 (amended, proved): the owner gets the full capability mask
unconditionally; a non-owner member none of whose resolvable held roles
carries the administrator bit gets the everyone role's allow mask OR-ed with
the allow mask of every held role, with no deny subtraction. -/
theorem club_resolution_amended (c : Club) (m : Member) :
    (c.ownerID = JSVal.str m.id →
      Club.permissionsOf c m = some ⟨Permissions.all⟩) ∧
    (c.ownerID ≠ JSVal.str m.id →
      ∀ e, rGet c.roles c.id = some e →
      (∀ r ∈ m.roles.filterMap (rGet c.roles),
        r.permissions.allow &&& Permissions.administrator = 0) →
      Club.permissionsOf c m = some ⟨clubSpecMask c m e.permissions.allow⟩) := by
  constructor
  · intro h
    unfold Club.permissionsOf
    rw [if_pos h]
  · intro h e he hno
    unfold Club.permissionsOf
    rw [if_neg h]
    simp only [he]
    rw [roleLoop_noAdmin c.roles m.roles e.permissions.allow hno]
    rfl

/-- Witness for the amended C3: the owner conjunct and the accumulation
conjunct, each at a concrete input. -/
theorem club_resolution_amended_witness :
    Club.permissionsOf
      { id := ("c"), ownerID := JSVal.str ("o") } { id := ("o") } =
      some ⟨Permissions.all⟩ ∧
    Club.permissionsOf
      { id := ("c"), ownerID := JSVal.str ("z"),
        roles := [(("c"), { id := ("c"), permissions := ⟨1⟩ }),
                  (("r"), { id := ("r"), permissions := ⟨2⟩ })] }
      { id := ("m"), roles := [("r")] } =
      some ⟨clubSpecMask
        { id := ("c"), ownerID := JSVal.str ("z"),
          roles := [(("c"), { id := ("c"), permissions := ⟨1⟩ }),
                    (("r"), { id := ("r"), permissions := ⟨2⟩ })] }
        { id := ("m"), roles := [("r")] } 1⟩ :=
  ⟨(club_resolution_amended _ _).1 (by decide),
   (club_resolution_amended _ _).2 (by decide) ⟨("c"), ⟨1⟩⟩ (by decide)
     (by decide)⟩

/-- Claim C10 (counterexample): the returned mask is not always the everyone
allow OR-ed with the allows of the registry-present held roles — a present
held role carrying the administrator bit makes the code return the full mask
instead (stale ids are still skipped). -/
theorem stale_role_cex :
    Club.permissionsOf
      { id := ("c"), ownerID := JSVal.str ("o"),
        roles := [(("c"), { id := ("c"), permissions := ⟨1⟩ }),
                  (("r"), { id := ("r"), permissions := ⟨8⟩ })] }
      { id := ("m"), roles := [("zzz"), ("r")] } ≠
    ((rGet
        ({ id := ("c"), ownerID := JSVal.str ("o"),
           roles := [(("c"), { id := ("c"), permissions := ⟨1⟩ }),
                     (("r"), { id := ("r"), permissions := ⟨8⟩ })] } : Club).roles
        ("c")).map fun e =>
      Permission.mk (presentRolesMask
        { id := ("c"), ownerID := JSVal.str ("o"),
          roles := [(("c"), { id := ("c"), permissions := ⟨1⟩ }),
                    (("r"), { id := ("r"), permissions := ⟨8⟩ })] }
        { id := ("m"), roles := [("zzz"), ("r")] } e.permissions.allow)) := by
  decide

/-- Claim C10 (amended, proved): for a non-owner member, held role ids absent
from the registry are skipped without failure; provided no resolvable held
role carries the administrator bit, the returned mask is the everyone allow
OR-ed with the allow masks of exactly the registry-present held roles. -/
theorem stale_role_amended (c : Club) (m : Member) (e : Role)
    (hno : c.ownerID ≠ JSVal.str m.id)
    (he : rGet c.roles c.id = some e)
    (hadm : ∀ r ∈ m.roles.filterMap (rGet c.roles),
      r.permissions.allow &&& Permissions.administrator = 0) :
    Club.permissionsOf c m =
      some ⟨presentRolesMask c m e.permissions.allow⟩ := by
  unfold Club.permissionsOf
  rw [if_neg hno]
  simp only [he]
  rw [roleLoop_noAdmin c.roles m.roles e.permissions.allow hadm,
    foldl_match_filterMap]
  rfl

/-- Witness for the amended C10 at a member holding one stale and one
resolvable role id. -/
theorem stale_role_amended_witness :
    Club.permissionsOf
      { id := ("c"), ownerID := JSVal.str ("o"),
        roles := [(("c"), { id := ("c"), permissions := ⟨1⟩ }),
                  (("r"), { id := ("r"), permissions := ⟨2⟩ })] }
      { id := ("m"), roles := [("zzz"), ("r")] } =
      some ⟨presentRolesMask
        { id := ("c"), ownerID := JSVal.str ("o"),
          roles := [(("c"), { id := ("c"), permissions := ⟨1⟩ }),
                    (("r"), { id := ("r"), permissions := ⟨2⟩ })] }
        { id := ("m"), roles := [("zzz"), ("r")] } 1⟩ :=
  stale_role_amended _ _ ⟨("c"), ⟨1⟩⟩ (by decide) (by decide) (by decide)

/-- Claim C4 (counterexample): with role overwrites denying and allowing the
same bit, the final mask does not always keep the bit set — a member-specific
overwrite applied after the pooled step can clear it (here bit 1: role r1
denies it, role r2 allows it, the member overwrite denies it again, and the
final mask is 0). -/
theorem pooled_overwrite_cex :
    (ClubChannel.permissionsOf
      { permissionOverwrites :=
          [(("r1"), { id := ("r1"), allow := 0, deny := 2 }),
           (("r2"), { id := ("r2"), allow := 2, deny := 0 }),
           (("m"), { id := ("m"), allow := 0, deny := 2 })] }
      { id := ("c"), ownerID := JSVal.str ("z"),
        roles := [(("c"), { id := ("c"), permissions := ⟨0⟩ })] }
      { id := ("m"), roles := [("r1"), ("r2")] }).map
      (fun q => q.allow.testBit 1) = some false := by
  decide

/-- Claim C4 (amended, proved): in the pooled role step the OR-ed allows are
applied after the OR-ed denies, so a bit denied by one held role's overwrite
and allowed by another's ends up set; it remains set in the final result
provided the member's club-wide mask lacks the administrator bit and no
member-specific overwrite denies the bit afterwards. -/
theorem pooled_overwrite_amended (ch : ClubChannel) (c : Club) (m : Member)
    (p : Permission) (r1 r2 : String) (o1 o2 : Overwrite) (bit : Nat)
    (hp : Club.permissionsOf c m = some p)
    (hadm : p.allow &&& Permissions.administrator = 0)
    (h1 : r1 ∈ m.roles) (h2 : r2 ∈ m.roles)
    (hg1 : rGet ch.permissionOverwrites r1 = some o1)
    (hd1 : o1.deny.testBit bit = true)
    (hg2 : rGet ch.permissionOverwrites r2 = some o2)
    (ha2 : o2.allow.testBit bit = true)
    (hmw : rGet ch.permissionOverwrites m.id = none ∨
      ∀ om, rGet ch.permissionOverwrites m.id = some om →
        om.deny.testBit bit = false) :
    ∃ q, ClubChannel.permissionsOf ch c m = some q ∧
      q.allow.testBit bit = true := by
  have hpool :
      ((poolRoles ch.permissionOverwrites m.roles 0 0).2).testBit bit = true :=
    poolRoles_allow_testBit ch.permissionOverwrites r2 o2 bit hg2 ha2
      m.roles h2 0 0
  unfold ClubChannel.permissionsOf
  rw [hp]
  simp only []
  rw [if_neg (not_not_intro hadm)]
  refine ⟨_, rfl, ?_⟩
  cases hm : rGet ch.permissionOverwrites m.id with
  | none =>
    simp only [hm]
    simp [Nat.testBit_lor, hpool]
  | some om =>
    have hdb : om.deny.testBit bit = false := by
      rcases hmw with hnone | hall
      · rw [hnone] at hm; cases hm
      · exact hall om hm
    simp only [hm]
    simp [Nat.testBit_lor, testBit_andNot, hpool, hdb]

/-- Witness for the amended C4: two role overwrites on bit 1 (one deny, one
allow) and no member overwrite; the resulting mask has bit 1 set. -/
theorem pooled_overwrite_amended_witness :
    ∃ q,
      ClubChannel.permissionsOf
        { permissionOverwrites :=
            [(("r1"), { id := ("r1"), allow := 0, deny := 2 }),
             (("r2"), { id := ("r2"), allow := 2, deny := 0 })] }
        { id := ("c"), ownerID := JSVal.str ("z"),
          roles := [(("c"), { id := ("c"), permissions := ⟨0⟩ })] }
        { id := ("m"), roles := [("r1"), ("r2")] } = some q ∧
      q.allow.testBit 1 = true :=
  pooled_overwrite_amended _ _ _ ⟨0⟩ ("r1") ("r2") ⟨("r1"), 0, 2⟩ ⟨("r2"), 2, 0⟩ 1
    (by decide) (by decide) (by decide) (by decide) (by decide) (by decide)
    (by decide) (by decide) (Or.inl (by decide))

/-- Claim C5 (counterexample): a channel merge whose payload omits the nsfw
field does not leave the nsfw attribute unchanged — a previously-true flag on
a channel whose name matches no nsfw pattern is cleared. -/
theorem merge_presence_cex :
    (ClubChannel.update {}
        { name := "art".toList, nsfw := some true }).nsfw ≠
      ({ name := "art".toList, nsfw := some true } : ClubChannel).nsfw := by
  decide

/-- Claim C5 (amended, proved): the presence-aware rule holds for every Club
and Member attribute (with `joined_at` stored through `Date.parse` and
`client_status` through default filling), and for the channel's type, name,
position and parentID; the channel's nsfw attribute is instead recomputed on
every merge from the post-merge name and the payload flag, and its overwrite
registry is rebuilt only when the payload field is present and non-null. -/
theorem merge_presence_amended (p : ClubPayload) (c : Club)
    (dp csA : JSVal → JSVal) (hc : Bool) (q : MemberPayload) (m : Member)
    (vs : List (String × VoiceState)) (r : ChannelPayload)
    (ch : ClubChannel) :
    ((Club.update p c).id = c.id ∧
     (Club.update p c).roles = c.roles ∧
     (Club.update p c).name = (if p.name.isDef then p.name else c.name) ∧
     (Club.update p c).verificationLevel =
       (if p.verification_level.isDef then p.verification_level
        else c.verificationLevel) ∧
     (Club.update p c).splash = (if p.splash.isDef then p.splash else c.splash) ∧
     (Club.update p c).banner = (if p.banner.isDef then p.banner else c.banner) ∧
     (Club.update p c).region = (if p.region.isDef then p.region else c.region) ∧
     (Club.update p c).ownerID =
       (if p.owner_id.isDef then p.owner_id else c.ownerID) ∧
     (Club.update p c).icon = (if p.icon.isDef then p.icon else c.icon) ∧
     (Club.update p c).features =
       (if p.features.isDef then p.features else c.features) ∧
     (Club.update p c).emojis = (if p.emojis.isDef then p.emojis else c.emojis) ∧
     (Club.update p c).afkChannelID =
       (if p.afk_channel_id.isDef then p.afk_channel_id else c.afkChannelID) ∧
     (Club.update p c).afkTimeout =
       (if p.afk_timeout.isDef then p.afk_timeout else c.afkTimeout) ∧
     (Club.update p c).defaultNotifications =
       (if p.default_message_notifications.isDef then
          p.default_message_notifications
        else c.defaultNotifications) ∧
     (Club.update p c).mfaLevel =
       (if p.mfa_level.isDef then p.mfa_level else c.mfaLevel) ∧
     (Club.update p c).large = (if p.large.isDef then p.large else c.large) ∧
     (Club.update p c).maxPresences =
       (if p.max_presences.isDef then p.max_presences else c.maxPresences) ∧
     (Club.update p c).explicitContentFilter =
       (if p.explicit_content_filter.isDef then p.explicit_content_filter
        else c.explicitContentFilter) ∧
     (Club.update p c).systemChannelID =
       (if p.system_channel_id.isDef then p.system_channel_id
        else c.systemChannelID) ∧
     (Club.update p c).premiumTier =
       (if p.premium_tier.isDef then p.premium_tier else c.premiumTier) ∧
     (Club.update p c).premiumSubscriptionCount =
       (if p.premium_subscription_count.isDef then
          p.premium_subscription_count
        else c.premiumSubscriptionCount) ∧
     (Club.update p c).vanityURL =
       (if p.vanity_url_code.isDef then p.vanity_url_code else c.vanityURL) ∧
     (Club.update p c).preferredLocale =
       (if p.preferred_locale.isDef then p.preferred_locale
        else c.preferredLocale) ∧
     (Club.update p c).description =
       (if p.description.isDef then p.description else c.description) ∧
     (Club.update p c).maxMembers =
       (if p.max_members.isDef then p.max_members else c.maxMembers) ∧
     (Club.update p c).publicUpdatesChannelID =
       (if p.public_updates_channel_id.isDef then p.public_updates_channel_id
        else c.publicUpdatesChannelID) ∧
     (Club.update p c).rulesChannelID =
       (if p.rules_channel_id.isDef then p.rules_channel_id
        else c.rulesChannelID) ∧
     (Club.update p c).maxVideoChannelUsers =
       (if p.max_video_channel_users.isDef then p.max_video_channel_users
        else c.maxVideoChannelUsers)) ∧
    ((Member.update dp csA hc q m vs).1.id = m.id ∧
     (Member.update dp csA hc q m vs).1.status =
       (if q.status.isDef then q.status else m.status) ∧
     (Member.update dp csA hc q m vs).1.game =
       (if q.game.isDef then q.game else m.game) ∧
     (Member.update dp csA hc q m vs).1.joinedAt =
       (if q.joined_at.isDef then dp q.joined_at else m.joinedAt) ∧
     (Member.update dp csA hc q m vs).1.clientStatus =
       (if q.client_status.isDef then csA q.client_status
        else m.clientStatus) ∧
     (Member.update dp csA hc q m vs).1.activities =
       (if q.activities.isDef then q.activities else m.activities) ∧
     (Member.update dp csA hc q m vs).1.premiumSince =
       (if q.premium_since.isDef then q.premium_since else m.premiumSince) ∧
     (Member.update dp csA hc q m vs).1.nick =
       (if q.nick.isDef then q.nick else m.nick) ∧
     (Member.update dp csA hc q m vs).1.roles = q.roles.getD m.roles) ∧
    ((ClubChannel.update r ch).id = ch.id ∧
     (ClubChannel.update r ch).type =
       (if r.type.isDef then r.type else ch.type) ∧
     (ClubChannel.update r ch).name = r.name.getD ch.name ∧
     (ClubChannel.update r ch).position =
       (if r.position.isDef then r.position else ch.position) ∧
     (ClubChannel.update r ch).parentID =
       (if r.parent_id.isDef then r.parent_id else ch.parentID) ∧
     (ClubChannel.update r ch).nsfw =
       (if nsfwName (r.name.getD ch.name) then some true else r.nsfw) ∧
     (ClubChannel.update r ch).permissionOverwrites =
       (match r.permission_overwrites with
        | some l => buildOverwrites l
        | none => ch.permissionOverwrites)) :=
  ⟨⟨rfl, rfl, rfl, rfl, rfl, rfl, rfl, rfl, rfl, rfl, rfl, rfl, rfl, rfl,
    rfl, rfl, rfl, rfl, rfl, rfl, rfl, rfl, rfl, rfl, rfl, rfl, rfl, rfl⟩,
   ⟨rfl, rfl, rfl, rfl, rfl, rfl, rfl, rfl, rfl⟩,
   ⟨rfl, rfl, rfl, rfl, rfl, rfl, rfl⟩⟩

theorem nsfwName_iff (n : List Char) :
    nsfwName n = true ↔ (n = "nsfw".toList ∨ "nsfw-".toList <+: n) := by
  unfold nsfwName
  by_cases hl : n.length = 4
  · rw [if_pos hl]
    rw [decide_eq_true_iff]
    constructor
    · exact Or.inl
    · rintro (h | h)
      · exact h
      · exfalso
        have h5 := h.length_le
        have : ("nsfw-".toList).length = 5 := rfl
        rw [this, hl] at h5
        omega
  · rw [if_neg hl, List.isPrefixOf_iff_prefix]
    constructor
    · exact Or.inr
    · rintro (h | h)
      · exact absurd (by rw [h]; rfl) hl
      · exact h

/-- Claim C6 (confirmed): after a channel merge the nsfw flag is true exactly
when the post-merge name is "nsfw", the post-merge name starts with "nsfw-",
or the payload carried an explicit nsfw: true; in every other case the flag
is not true (the stored value is then the payload flag itself — `undefined`,
i.e. falsy, when the flag was absent). -/
theorem nsfw_derivation (data : ChannelPayload) (ch : ClubChannel) :
    (ClubChannel.update data ch).nsfw = some true ↔
      ((ClubChannel.update data ch).name = "nsfw".toList ∨
       "nsfw-".toList <+: (ClubChannel.update data ch).name ∨
       data.nsfw = some true) := by
  have hname : (ClubChannel.update data ch).name = data.name.getD ch.name := rfl
  have hn : (ClubChannel.update data ch).nsfw =
      (if nsfwName (data.name.getD ch.name) then some true else data.nsfw) :=
    rfl
  rw [hname, hn]
  cases hb : nsfwName (data.name.getD ch.name) with
  | true =>
    rw [if_pos rfl]
    constructor
    · intro _
      rcases (nsfwName_iff _).mp hb with h | h
      · exact Or.inl h
      · exact Or.inr (Or.inl h)
    · intro _
      rfl
  | false =>
    rw [if_neg (by simp)]
    have hnot : ¬(data.name.getD ch.name = "nsfw".toList ∨
        "nsfw-".toList <+: data.name.getD ch.name) := by
      intro h
      rw [(nsfwName_iff _).mpr h] at hb
      cases hb
    constructor
    · intro h
      exact Or.inr (Or.inr h)
    · rintro (h | h | h)
      · exact absurd (Or.inl h) hnot
      · exact absurd (Or.inr h) hnot
      · exact h

/-- Claim C7 (code evaluation): merging an empty payload into a channel named
"general" whose nsfw attribute is true clears the attribute (it becomes
`undefined`), contradicting the presence-aware frame rule the spec states. -/
theorem nsfw_clearing_eval :
    (ClubChannel.update {}
        { name := "general".toList, nsfw := some true }).nsfw = none ∧
      ({ name := "general".toList, nsfw := some true } : ClubChannel).nsfw =
        some true := by
  constructor
  · decide
  · rfl

/-- Claim C8 (confirmed): merging a voice payload with a null channel id and
mute, deaf and suppress all false removes the member's existing voice state
from the club registry, and the voiceState getter then returns the detached
all-default state keyed by the member's id. -/
theorem voice_cleanup (dp csA : JSVal → JSVal) (data : MemberPayload)
    (m : Member) (vs : List (String × VoiceState)) (st : VoiceState)
    (hst : rGet vs m.id = some st)
    (hm : data.mute = some (JSVal.bool false))
    (hd : data.deaf = JSVal.bool false)
    (hs : data.suppress = JSVal.bool false)
    (hch : data.channel_id = JSVal.null) :
    rGet (Member.update dp csA true data m vs).2 m.id = none ∧
      Member.voiceState true (Member.update dp csA true data m vs).2
        (Member.update dp csA true data m vs).1 = VoiceState.detached m.id := by
  have hvs : (Member.update dp csA true data m vs).2 = rDel vs m.id := by
    unfold Member.update
    rw [hm, hd, hs, hch]
    simp [getJS, JSVal.truthy]
  have hid : (Member.update dp csA true data m vs).1.id = m.id := rfl
  refine ⟨by rw [hvs, rGet_rDel], ?_⟩
  unfold Member.voiceState
  rw [if_pos rfl, hid, hvs, rGet_rDel]

/-- Witness for C8 at a concrete member with a registered voice state. -/
theorem voice_cleanup_witness :
    rGet
      (Member.update (fun v => v) (fun v => v) true
        { mute := some (JSVal.bool false), deaf := JSVal.bool false,
          suppress := JSVal.bool false, channel_id := JSVal.null }
        { id := ("m") }
        [(("m"), { id := ("m"), channelID := JSVal.str ("v"),
                   mute := true })]).2 ("m") = none ∧
    Member.voiceState true
      (Member.update (fun v => v) (fun v => v) true
        { mute := some (JSVal.bool false), deaf := JSVal.bool false,
          suppress := JSVal.bool false, channel_id := JSVal.null }
        { id := ("m") }
        [(("m"), { id := ("m"), channelID := JSVal.str ("v"),
                   mute := true })]).2
      (Member.update (fun v => v) (fun v => v) true
        { mute := some (JSVal.bool false), deaf := JSVal.bool false,
          suppress := JSVal.bool false, channel_id := JSVal.null }
        { id := ("m") }
        [(("m"), { id := ("m"), channelID := JSVal.str ("v"),
                   mute := true })]).1 = VoiceState.detached ("m") :=
  voice_cleanup (fun v => v) (fun v => v) _ _ _
    { id := ("m"), channelID := JSVal.str ("v"), mute := true }
    (by decide) rfl rfl rfl rfl

/-- Claim C9 (counterexample): a Member constructed without an owning club
from a payload carrying an id but no embedded user, with an empty
process-wide user registry, is built successfully with a null user instead of
raising an error. -/
theorem member_null_user_cex :
    Member.construct [] false { id := some ("1") } =
      Except.ok { id := ("1"), user := none } := by
  rfl

/-- Claim C9 (amended, proved): when constructed with an owning club, a
successfully constructed Member always has a non-null user, and a payload
with no embedded user combined with an empty process-wide registry makes
construction fail with an explicit error; only the club-less constructor path
can produce a null user without error. -/
theorem member_user_amended (users : List (String × UserObj))
    (data : MemberCtorPayload) :
    (∀ r, Member.construct users true data = Except.ok r →
      r.user.isSome = true) ∧
    (data.user = none →
      ∀ r, Member.construct [] true data ≠ Except.ok r) := by
  constructor
  · intro r
    unfold Member.construct
    cases hmid : resolveId data with
    | none =>
      intro hr
      simp at hr
    | some i =>
      intro hr
      simp only [] at hr
      rw [if_pos trivial] at hr
      revert hr
      cases hg : rGet users i with
      | some u =>
        intro hr
        cases hr
        rfl
      | none =>
        cases hu : data.user with
        | some u =>
          intro hr
          cases hr
          rfl
        | none =>
          intro hr
          simp at hr
  · intro hu r
    unfold Member.construct resolveId
    rw [hu]
    cases data.id with
    | none => simp
    | some s =>
      by_cases hse : s = ""
      · simp [hse]
      · simp [hse, rGet]

/-- Witness for the amended C9: a cached user yields a non-null user on the
club path, and the unresolvable case is rejected. -/
theorem member_user_amended_witness :
    ({ id := ("1"), user := some ⟨("1")⟩ } : MemberInit).user.isSome = true ∧
    Member.construct [] true { id := some ("1") } ≠
      Except.ok { id := ("1"), user := none } :=
  ⟨(member_user_amended [(("1"), ⟨("1")⟩)] { id := some ("1") }).1 _ rfl,
   (member_user_amended [] { id := some ("1") }).2 rfl _⟩
